import Mathlib

/-!
Verification of the screen-share capture session controller
(src/hooks/useScreenShare.ts) and the browser sniffing helper
(src/utils/browser.ts).

The hook is shallowly embedded as a state machine over `HookState`
(the five useState fields plus the isMountedRef flag).  Each operation of
the source becomes a pure function; the asynchronous getDisplayMedia call
is modelled by passing the platform outcome (grant or rejection) as an
argument.  Observable effects (which streams were released via
cleanupStream, how many platform capture requests were issued) are returned
alongside the new state.
-/

namespace ScreenShare

/-- PermissionState enum from src/types/screenShare.ts.
"granted" is the Active phase of the spec; "error" is the Failed phase. -/
inductive PermissionState where
  | idle
  | requesting
  | granted
  | cancelled
  | denied
  | error
deriving DecidableEq

/-- DisplayType from src/types/screenShare.ts. -/
inductive DisplayType where
  | monitor
  | window
  | browser
  | unknown
deriving DecidableEq

/-- StreamMetadata from src/types/screenShare.ts.  The source field types
are numbers; the controller only copies them from track settings or
defaults them to 0, so Nat is an adequate carrier. -/
structure StreamMetadata where
  displayType : DisplayType
  width : Nat
  height : Nat
  frameRate : Nat
deriving DecidableEq

/-- The settings object reported by MediaStreamTrack.getSettings().
displaySurface, width, height and frameRate may each be absent. -/
structure TrackSettings where
  displaySurface : Option String
  width : Option Nat
  height : Option Nat
  frameRate : Option Nat
deriving DecidableEq

/-- A MediaStream handle: an identity (for release accounting) and the
settings of its video tracks, in order.  getVideoTracks()[0] is the head.
Audio tracks play no role in the hook beyond being stopped together with
the stream, so they are not modelled separately. -/
structure MediaStream where
  sid : Nat
  videoTracks : List TrackSettings
deriving DecidableEq

/-- A JavaScript error value: its name and message, which is all the
catch block of requestScreenShare inspects. -/
structure JsError where
  name : String
  message : String
deriving DecidableEq

/-- Bool test: does pat occur at the start of s. -/
def listStarts (pat s : List Char) : Bool :=
  decide (s.take pat.length = pat)

/-- Bool test: does pat occur as a contiguous run inside s.  Models
JavaScript String.prototype.includes. -/
def listHas (pat : List Char) : List Char → Bool
  | [] => decide (pat = [])
  | c :: rest => listStarts pat (c :: rest) || listHas pat rest

/-- s.includes(pat) for Lean strings. -/
def strContains (s pat : String) : Bool :=
  listHas pat.toList s.toList

/-- getDisplayType (src/hooks/useScreenShare.ts lines 31-46): map the
track's reported displaySurface to a DisplayType, defaulting to unknown
for an unrecognized or absent value. -/
def getDisplayType (settings : TrackSettings) : DisplayType :=
  if settings.displaySurface = some "monitor" then DisplayType.monitor
  else if settings.displaySurface = some "window" then DisplayType.window
  else if settings.displaySurface = some "browser" then DisplayType.browser
  else DisplayType.unknown

/-- extractMetadata (src/hooks/useScreenShare.ts lines 51-75): throws
(Except.error) when the stream has no video track, otherwise reads the
first video track's settings, defaulting width, height and frameRate
to 0.  The thrown value is a plain Error, whose name is "Error". -/
def extractMetadata (mediaStream : MediaStream) : Except JsError StreamMetadata :=
  match mediaStream.videoTracks with
  | [] => Except.error { name := "Error", message := "No video track found" }
  | videoTrack :: _ =>
      Except.ok
        { displayType := getDisplayType videoTrack
          width := videoTrack.width.getD 0
          height := videoTrack.height.getD 0
          frameRate := videoTrack.frameRate.getD 0 }

/-- The hook's state: the five useState fields of useScreenShare plus the
isMountedRef flag. -/
structure HookState where
  permissionState : PermissionState
  stream : Option MediaStream
  metadata : Option StreamMetadata
  error : Option JsError
  isActive : Bool
  mounted : Bool
deriving DecidableEq

/-- The initial state of the hook (src/hooks/useScreenShare.ts
lines 17-26). -/
def initState : HookState :=
  { permissionState := PermissionState.idle
    stream := none
    metadata := none
    error := none
    isActive := false
    mounted := true }

/-- cleanupStream (src/hooks/useScreenShare.ts lines 80-98): stops every
track of the given stream; no-op on null.  Modelled by the list of stream
ids whose tracks get stopped. -/
def cleanupStream : Option MediaStream → List Nat
  | none => []
  | some ms => [ms.sid]

/-- Result of running one operation: the new hook state, the ids of the
streams released via cleanupStream, in order. -/
structure Effects where
  state : HookState
  releases : List Nat
deriving DecidableEq

/-- Result of a whole requestScreenShare call, additionally recording how
many getDisplayMedia platform calls were issued. -/
structure StepOut where
  state : HookState
  releases : List Nat
  platformCalls : Nat
deriving DecidableEq

/-- The error classification chain in the catch block of
requestScreenShare (src/hooks/useScreenShare.ts lines 187-207). -/
def classifyError (err : JsError) : PermissionState :=
  if err.name = "NotAllowedError" then
    if strContains err.message "cancelled" || strContains err.message "dismiss" then
      PermissionState.cancelled
    else
      PermissionState.denied
  else if err.name = "NotFoundError" then PermissionState.cancelled
  else if err.name = "NotSupportedError" then PermissionState.error
  else if err.name = "AbortError" then PermissionState.cancelled
  else PermissionState.error

/-- The catch block of requestScreenShare (lines 176-213): if unmounted,
return without touching state; otherwise set permissionState from the
classification, store the error, and clear isActive.  It never releases
any stream. -/
def requestCatch (st : HookState) (err : JsError) : HookState :=
  if st.mounted then
    { st with
        permissionState := classifyError err
        error := some err
        isActive := false }
  else st

/-- The synchronous head of requestScreenShare (lines 126-128), run before
the await on getDisplayMedia: clear the error and enter requesting.
No phase precondition is checked. -/
def requestBegin (st : HookState) : HookState :=
  { st with error := none, permissionState := PermissionState.requesting }

/-- The outcome of the awaited getDisplayMedia call. -/
inductive PlatformOutcome where
  | granted (ms : MediaStream)
  | rejected (err : JsError)
deriving DecidableEq

/-- The continuation of requestScreenShare after getDisplayMedia settles
(lines 139-213).  On a grant, extractMetadata runs first; if it throws,
control moves to the catch block without any cleanup of the fresh stream.
Otherwise, if still mounted the stream and metadata are stored under
granted; if unmounted the stream is released and discarded. -/
def requestResume (st : HookState) (outcome : PlatformOutcome) : Effects :=
  match outcome with
  | PlatformOutcome.granted ms =>
      match extractMetadata ms with
      | Except.error e => { state := requestCatch st e, releases := [] }
      | Except.ok md =>
          if st.mounted then
            { state :=
                { st with
                    permissionState := PermissionState.granted
                    stream := some ms
                    metadata := some md
                    isActive := true }
              releases := [] }
          else
            { state := st, releases := cleanupStream (some ms) }
  | PlatformOutcome.rejected e => { state := requestCatch st e, releases := [] }

/-- requestScreenShare (lines 122-214), run to completion with nothing
interleaved during the await: the synchronous head, exactly one platform
call, then the continuation. -/
def requestScreenShare (st : HookState) (outcome : PlatformOutcome) : StepOut :=
  let r := requestResume (requestBegin st) outcome
  { state := r.state, releases := r.releases, platformCalls := 1 }

/-- stopScreenShare (lines 219-237): no-op when stream is null; otherwise
release the stream, and (when still mounted) clear isActive, stream and
metadata and return to idle.  The error field is never touched. -/
def stopScreenShare (st : HookState) : Effects :=
  match st.stream with
  | none => { state := st, releases := [] }
  | some ms =>
      if st.mounted then
        { state :=
            { st with
                isActive := false
                permissionState := PermissionState.idle
                stream := none
                metadata := none }
          releases := cleanupStream (some ms) }
      else
        { state := st, releases := cleanupStream (some ms) }

/-- handleStreamEnd (lines 103-117): on the external termination signal,
skip everything if unmounted, otherwise reset to idle and clear the
stream and metadata.  It performs no release (the tracks already
ended on the platform side) and does not touch the error field. -/
def handleStreamEnd (st : HookState) : HookState :=
  if st.mounted then
    { st with
        isActive := false
        permissionState := PermissionState.idle
        stream := none
        metadata := none }
  else st

/-- The unmount effect cleanup (lines 242-253): mark the controller
disposed and release the currently held stream, if any.  State fields are
not mutated further (the owning view is gone). -/
def unmountCleanup (st : HookState) : Effects :=
  { state := { st with mounted := false }, releases := cleanupStream st.stream }

/-- A start call whose controller is disposed while the platform request
is outstanding: the synchronous head runs mounted, then the unmount
cleanup, then the continuation observes mounted = false. -/
def startThenUnmount (st : HookState) (outcome : PlatformOutcome) : StepOut :=
  let mid := requestBegin st
  let u := unmountCleanup mid
  let r := requestResume u.state outcome
  { state := r.state, releases := u.releases ++ r.releases, platformCalls := 1 }

/-- getBrowserInfo (src/utils/browser.ts lines 25-43), with the ambient
navigator.userAgent made explicit (none models an absent navigator). -/
def getBrowserInfo : Option String → String
  | none => "Unknown (no navigator)"
  | some userAgent =>
      if strContains userAgent "Chrome" then "Chrome"
      else if strContains userAgent "Edg" then "Edge"
      else if strContains userAgent "Firefox" then "Firefox"
      else if strContains userAgent "Safari" then "Safari"
      else "Unknown"

/-- States of the live (mounted) controller reachable under call
sequences that respect the documented precondition of start: a new
request is only issued from a rest phase (not requesting, not granted),
the way the consuming view drives the hook; the external termination
signal can only fire while a stream is actually held. -/
inductive Reachable : HookState → Prop where
  | init : Reachable initState
  | start : ∀ (st : HookState) (o : PlatformOutcome), Reachable st →
      st.permissionState ≠ PermissionState.requesting →
      st.permissionState ≠ PermissionState.granted →
      Reachable (requestScreenShare st o).state
  | stop : ∀ (st : HookState), Reachable st →
      Reachable (stopScreenShare st).state
  | streamEnd : ∀ (st : HookState), Reachable st → st.stream ≠ none →
      Reachable (handleStreamEnd st)

/-- The controller invariant maintained on the reachable states. -/
def Inv (st : HookState) : Prop :=
  st.mounted = true ∧
  (st.error ≠ none ↔
    (st.permissionState = PermissionState.cancelled ∨
     st.permissionState = PermissionState.denied ∨
     st.permissionState = PermissionState.error)) ∧
  (st.stream = none ↔ st.metadata = none) ∧
  (st.stream ≠ none ↔ st.permissionState = PermissionState.granted) ∧
  (st.isActive = true ↔ st.permissionState = PermissionState.granted)

/-! Concrete fixtures used in counterexamples and witnesses. -/

/-- Track settings of a full monitor grant (scenario A of the spec). -/
def tsMonitor : TrackSettings :=
  { displaySurface := some "monitor"
    width := some 1920
    height := some 1080
    frameRate := some 30 }

/-- Track settings reporting no surface kind and no dimensions
(scenario B of the spec). -/
def tsEmpty : TrackSettings :=
  { displaySurface := none, width := none, height := none, frameRate := none }

/-- A granted stream carrying a monitor video track. -/
def msMonitor : MediaStream := { sid := 1, videoTracks := [tsMonitor] }

/-- A granted stream whose track reports no optional settings. -/
def msEmptySettings : MediaStream := { sid := 2, videoTracks := [tsEmpty] }

/-- A granted stream with no video track at all (for example audio only). -/
def msNoVideo : MediaStream := { sid := 7, videoTracks := [] }

/-- A platform abort rejection. -/
def errAbort : JsError := { name := "AbortError", message := "The request was aborted" }

/-- A no-selection rejection. -/
def errNotFound : JsError := { name := "NotFoundError", message := "no display was selected" }

/-- An explicit permission refusal. -/
def errDenied : JsError := { name := "NotAllowedError", message := "Permission denied by system" }

/-- The state after a successful monitor grant from the initial state. -/
def activeState : HookState :=
  (requestScreenShare initState (PlatformOutcome.granted msMonitor)).state

/-! Invariant preservation. -/

lemma classify_cases (e : JsError) :
    classifyError e = PermissionState.cancelled ∨
    classifyError e = PermissionState.denied ∨
    classifyError e = PermissionState.error := by
  unfold classifyError
  repeat' split
  all_goals simp

lemma inv_init : Inv initState := by
  refine ⟨rfl, ?_, ?_, ?_, ?_⟩ <;> simp [initState]

lemma inv_start (st : HookState) (o : PlatformOutcome) (h : Inv st)
    (hg : st.permissionState ≠ PermissionState.granted) :
    Inv (requestScreenShare st o).state := by
  obtain ⟨hm, _herr, hsm, hsp, _hact⟩ := h
  have hstream : st.stream = none := by
    rcases hs : st.stream with _ | ms
    · rfl
    · exact absurd (hsp.mp (by simp [hs])) hg
  have hmeta : st.metadata = none := hsm.mp hstream
  cases o with
  | granted ms =>
      cases hex : extractMetadata ms with
      | error e =>
          simp only [requestScreenShare, requestResume, requestBegin, hex]
          rcases classify_cases e with hc | hc | hc <;>
            simp [Inv, requestCatch, hm, hc, hstream, hmeta]
      | ok md =>
          simp only [requestScreenShare, requestResume, requestBegin, hex]
          simp [Inv, hm, hstream, hmeta]
  | rejected e =>
      simp only [requestScreenShare, requestResume, requestBegin]
      rcases classify_cases e with hc | hc | hc <;>
        simp [Inv, requestCatch, hm, hc, hstream, hmeta]

lemma inv_stop (st : HookState) (h : Inv st) :
    Inv (stopScreenShare st).state := by
  obtain ⟨hm, herr, hsm, hsp, _hact⟩ := h
  rcases hs : st.stream with _ | ms
  · simpa [stopScreenShare, hs] using ⟨hm, herr, hsm, hsp, _hact⟩
  · have hg : st.permissionState = PermissionState.granted := hsp.mp (by simp [hs])
    have herrnone : st.error = none := by
      rcases he : st.error with _ | e
      · rfl
      · have hmem := herr.mp (by simp [he])
        rw [hg] at hmem
        rcases hmem with h1 | h1 | h1 <;> cases h1
    simp [Inv, stopScreenShare, hs, hm, herrnone]

lemma inv_streamEnd (st : HookState) (h : Inv st) (hs : st.stream ≠ none) :
    Inv (handleStreamEnd st) := by
  obtain ⟨hm, herr, hsm, hsp, _hact⟩ := h
  have hg : st.permissionState = PermissionState.granted := hsp.mp hs
  have herrnone : st.error = none := by
    rcases he : st.error with _ | e
    · rfl
    · have hmem := herr.mp (by simp [he])
      rw [hg] at hmem
      rcases hmem with h1 | h1 | h1 <;> cases h1
  simp [Inv, handleStreamEnd, hm, herrnone]

/-- Every reachable state of the live controller satisfies the
invariant. -/
lemma reachable_inv : ∀ st : HookState, Reachable st → Inv st := by
  intro st h
  induction h with
  | init => exact inv_init
  | start st o _h _hreq hg ih => exact inv_start st o ih hg
  | stop st _h ih => exact inv_stop st ih
  | streamEnd st _h hs ih => exact inv_streamEnd st ih hs

/-! Claim C1. -/

/-- Claim C1, counterexample: from the reachable Active state, calling
requestScreenShare is not a no-op: it still issues a platform capture
call and it changes the session state (the hook has no phase guard). -/
theorem start_while_active_not_noop :
    Reachable activeState ∧
    activeState.permissionState = PermissionState.granted ∧
    (requestScreenShare activeState (PlatformOutcome.rejected errAbort)).platformCalls = 1 ∧
    (requestScreenShare activeState (PlatformOutcome.rejected errAbort)).state ≠ activeState :=
  ⟨Reachable.start initState (PlatformOutcome.granted msMonitor) Reachable.init
      (by decide) (by decide),
   by decide, rfl, by decide⟩

/-- Claim C1, amended: requestScreenShare checks no precondition at all.
From every state and for every outcome it issues exactly one platform
capture call, and its synchronous head always clears the error and
transitions to requesting, whatever the current phase. -/
theorem start_always_issues_platform_call (st : HookState) (o : PlatformOutcome) :
    (requestScreenShare st o).platformCalls = 1 ∧
    (requestBegin st).permissionState = PermissionState.requesting ∧
    (requestBegin st).error = none :=
  ⟨rfl, rfl, rfl⟩

/-! Claim C2. -/

/-- Claim C2: on the branch where metadata extraction fails after a grant
(a stream with no video track), the granted handle is neither stored nor
ever released: cleanupStream is not invoked, so the handle is orphaned,
contradicting the exactly-once release property. -/
theorem extraction_failure_orphans_stream :
    (requestScreenShare initState (PlatformOutcome.granted msNoVideo)).releases = [] ∧
    (requestScreenShare initState (PlatformOutcome.granted msNoVideo)).state.stream = none ∧
    (requestScreenShare initState (PlatformOutcome.granted msNoVideo)).state.permissionState =
      PermissionState.error ∧
    (requestScreenShare initState (PlatformOutcome.granted msNoVideo)).state.error =
      some { name := "Error", message := "No video track found" } := by
  decide

/-! Claim C3. -/

/-- Claim C3, counterexample: when a request resolves to the Cancelled
phase the error detail is stored anyway, because the catch block stores
the raw error after every classification. -/
theorem cancelled_stores_error :
    Reachable (requestScreenShare initState (PlatformOutcome.rejected errNotFound)).state ∧
    (requestScreenShare initState (PlatformOutcome.rejected errNotFound)).state.permissionState =
      PermissionState.cancelled ∧
    (requestScreenShare initState (PlatformOutcome.rejected errNotFound)).state.error =
      some errNotFound :=
  ⟨Reachable.start initState (PlatformOutcome.rejected errNotFound) Reachable.init
      (by decide) (by decide),
   by decide, by decide⟩

/-- Claim C3, amended: in every reachable state, the error field is
present if and only if the phase is Cancelled, Denied or Failed:
cancellation stores the error detail exactly like the two fault
phases. -/
theorem error_iff_failure_phase (st : HookState) (h : Reachable st) :
    st.error ≠ none ↔
      (st.permissionState = PermissionState.cancelled ∨
       st.permissionState = PermissionState.denied ∨
       st.permissionState = PermissionState.error) :=
  (reachable_inv st h).2.1

/-- Witness for the amended C3 at the concrete cancelled state. -/
theorem error_iff_failure_phase_witness :
    (requestScreenShare initState (PlatformOutcome.rejected errNotFound)).state.error ≠ none ↔
      ((requestScreenShare initState (PlatformOutcome.rejected errNotFound)).state.permissionState =
         PermissionState.cancelled ∨
       (requestScreenShare initState (PlatformOutcome.rejected errNotFound)).state.permissionState =
         PermissionState.denied ∨
       (requestScreenShare initState (PlatformOutcome.rejected errNotFound)).state.permissionState =
         PermissionState.error) :=
  error_iff_failure_phase _
    (Reachable.start initState (PlatformOutcome.rejected errNotFound) Reachable.init
      (by decide) (by decide))

/-! Claim C4. -/

/-- Claim C4, counterexample: a platform abort (AbortError) resolves to
the Cancelled phase, not to the Failed phase. -/
theorem abort_error_resolves_cancelled :
    (requestScreenShare initState (PlatformOutcome.rejected errAbort)).state.permissionState =
      PermissionState.cancelled ∧
    (requestScreenShare initState (PlatformOutcome.rejected errAbort)).state.permissionState ≠
      PermissionState.error := by
  decide

/-- Claim C4, amended: the rejection classification of the catch block.
An unsupported capability and any unrecognized error resolve to Failed;
a NotAllowedError resolves to Cancelled when its message mentions
cancellation or dismissal and to Denied otherwise; a no-selection
(NotFoundError) rejection resolves to Cancelled; and an AbortError also
resolves to Cancelled, not Failed. -/
theorem error_classification :
    (∀ (st : HookState) (e : JsError), st.mounted = true →
        (requestScreenShare st (PlatformOutcome.rejected e)).state.permissionState =
          classifyError e) ∧
    (∀ msg : String,
        classifyError { name := "AbortError", message := msg } =
          PermissionState.cancelled) ∧
    (∀ msg : String,
        classifyError { name := "NotSupportedError", message := msg } =
          PermissionState.error) ∧
    (∀ nm msg : String, nm ≠ "NotAllowedError" → nm ≠ "NotFoundError" →
        nm ≠ "NotSupportedError" → nm ≠ "AbortError" →
        classifyError { name := nm, message := msg } = PermissionState.error) ∧
    (∀ msg : String,
        classifyError { name := "NotFoundError", message := msg } =
          PermissionState.cancelled) ∧
    (∀ msg : String, strContains msg "cancelled" = false → strContains msg "dismiss" = false →
        classifyError { name := "NotAllowedError", message := msg } =
          PermissionState.denied) ∧
    (∀ msg : String, (strContains msg "cancelled" = true ∨ strContains msg "dismiss" = true) →
        classifyError { name := "NotAllowedError", message := msg } =
          PermissionState.cancelled) := by
  refine ⟨?_, ?_, ?_, ?_, ?_, ?_, ?_⟩
  · intro st e hm
    simp [requestScreenShare, requestResume, requestCatch, requestBegin, hm]
  · intro msg; rfl
  · intro msg; rfl
  · intro nm msg h1 h2 h3 h4
    simp [classifyError, h1, h2, h3, h4]
  · intro msg; rfl
  · intro msg hc hd
    simp [classifyError, hc, hd]
  · intro msg h
    rcases h with h | h <;> simp [classifyError, h]

/-- Witness for the amended C4: an unrecognized TypeError resolves to
Failed, and a concrete rejection feeds the classification. -/
theorem error_classification_witness :
    classifyError { name := "TypeError", message := "boom" } = PermissionState.error ∧
    (requestScreenShare initState (PlatformOutcome.rejected errAbort)).state.permissionState =
      classifyError errAbort :=
  ⟨error_classification.2.2.2.1 "TypeError" "boom" (by decide) (by decide) (by decide) (by decide),
   error_classification.1 initState errAbort (by decide)⟩

/-! Claim C5. -/

/-- Claim C5, counterexample: the operations do not all preserve the
handle and metadata invariant.  Starting from the reachable Active state
(where the invariant holds), a further start whose request is refused
leaves the old stream and metadata in place while the phase moves to
Denied, so both are present outside Active. -/
theorem start_while_active_breaks_handle_invariant :
    Reachable activeState ∧
    (activeState.stream ≠ none ↔ activeState.permissionState = PermissionState.granted) ∧
    (requestScreenShare activeState (PlatformOutcome.rejected errDenied)).state.stream ≠ none ∧
    (requestScreenShare activeState (PlatformOutcome.rejected errDenied)).state.metadata ≠ none ∧
    (requestScreenShare activeState (PlatformOutcome.rejected errDenied)).state.permissionState =
      PermissionState.denied :=
  ⟨Reachable.start initState (PlatformOutcome.granted msMonitor) Reachable.init
      (by decide) (by decide),
   by decide, by decide, by decide, by decide⟩

/-- Claim C5, amended: in every state reachable while start is only
invoked from a rest phase (its documented precondition), the stream and
the metadata are both present or both absent, and they are present if and
only if the phase is Active. -/
theorem handle_metadata_iff_active (st : HookState) (h : Reachable st) :
    (st.stream = none ↔ st.metadata = none) ∧
    (st.stream ≠ none ↔ st.permissionState = PermissionState.granted) :=
  ⟨(reachable_inv st h).2.2.1, (reachable_inv st h).2.2.2.1⟩

/-- Witness for the amended C5 at the concrete Active state. -/
theorem handle_metadata_iff_active_witness :
    (activeState.stream = none ↔ activeState.metadata = none) ∧
    (activeState.stream ≠ none ↔ activeState.permissionState = PermissionState.granted) :=
  handle_metadata_iff_active activeState
    (Reachable.start initState (PlatformOutcome.granted msMonitor) Reachable.init
      (by decide) (by decide))

/-! Claim C6. -/

/-- Claim C6: metadata extraction is total on any granted stream with a
video track.  An unrecognized or absent surface classification maps to
unknown, unreported dimensions and frame rate default to 0, extraction on
a nonempty track list always succeeds with a fully populated record, and
a grant whose settings report nothing yields metadata unknown/0/0/0 with
the Active phase. -/
theorem metadata_extraction_total :
    (∀ ts : TrackSettings,
        ts.displaySurface ≠ some "monitor" → ts.displaySurface ≠ some "window" →
        ts.displaySurface ≠ some "browser" → getDisplayType ts = DisplayType.unknown) ∧
    (∀ (sid : Nat) (t : TrackSettings) (rest : List TrackSettings),
        extractMetadata { sid := sid, videoTracks := t :: rest } =
          Except.ok
            { displayType := getDisplayType t
              width := t.width.getD 0
              height := t.height.getD 0
              frameRate := t.frameRate.getD 0 }) ∧
    (requestScreenShare initState (PlatformOutcome.granted msEmptySettings)).state.permissionState =
      PermissionState.granted ∧
    (requestScreenShare initState (PlatformOutcome.granted msEmptySettings)).state.metadata =
      some { displayType := DisplayType.unknown, width := 0, height := 0, frameRate := 0 } := by
  refine ⟨?_, ?_, by decide, by decide⟩
  · intro ts h1 h2 h3
    simp [getDisplayType, h1, h2, h3]
  · intro sid t rest
    rfl

/-- Witness for C6: a surface kind the mapping does not recognize comes
out as unknown. -/
theorem metadata_extraction_total_witness :
    getDisplayType
        { displaySurface := some "tab", width := none, height := none, frameRate := none } =
      DisplayType.unknown :=
  metadata_extraction_total.1 _ (by decide) (by decide) (by decide)

/-! Claim C7. -/

/-- Claim C7, counterexample: a handle granted after disposal whose
metadata extraction throws (no video track) is not released: the catch
block returns early when unmounted without any cleanup, so the claim does
not hold for every granted handle. -/
theorem disposed_trackless_grant_not_released :
    (startThenUnmount initState (PlatformOutcome.granted msNoVideo)).releases = [] ∧
    (startThenUnmount initState (PlatformOutcome.granted msNoVideo)).state.stream = none := by
  decide

/-- Claim C7, amended: when the controller is disposed mid-flight and the
platform then grants a handle that has a visual track, that handle is
released immediately and discarded, and the success continuation mutates
no session-state field: the final state is exactly the state at disposal
time. -/
theorem disposed_grant_released_and_discarded (st : HookState) (ms : MediaStream)
    (h : ms.videoTracks ≠ []) :
    (startThenUnmount st (PlatformOutcome.granted ms)).releases =
      cleanupStream st.stream ++ [ms.sid] ∧
    (startThenUnmount st (PlatformOutcome.granted ms)).state =
      { requestBegin st with mounted := false } := by
  obtain ⟨sid, tracks⟩ := ms
  cases tracks with
  | nil => simp at h
  | cons t rest =>
      constructor <;>
        simp [startThenUnmount, unmountCleanup, requestResume, extractMetadata,
          requestBegin, cleanupStream]

/-- Witness for the amended C7 at a concrete monitor grant. -/
theorem disposed_grant_released_witness :
    (startThenUnmount initState (PlatformOutcome.granted msMonitor)).releases =
      cleanupStream initState.stream ++ [msMonitor.sid] ∧
    (startThenUnmount initState (PlatformOutcome.granted msMonitor)).state =
      { requestBegin initState with mounted := false } :=
  disposed_grant_released_and_discarded initState msMonitor (by decide)

/-! Claim C8. -/

/-- Claim C8: stop is idempotent.  In every reachable state, stop from
the Active phase releases the held stream once and resets to idle with
the stream and metadata cleared; stop in any phase other than Active is a
no-op with no release; and a second consecutive stop never changes the
state and never releases anything. -/
theorem stop_idempotent (st : HookState) (h : Reachable st) :
    (st.permissionState = PermissionState.granted →
        ∃ ms : MediaStream, st.stream = some ms ∧
          (stopScreenShare st).releases = [ms.sid] ∧
          (stopScreenShare st).state =
            { st with
                isActive := false
                permissionState := PermissionState.idle
                stream := none
                metadata := none }) ∧
    (st.permissionState ≠ PermissionState.granted →
        stopScreenShare st = { state := st, releases := [] }) ∧
    (stopScreenShare (stopScreenShare st).state).state = (stopScreenShare st).state ∧
    (stopScreenShare (stopScreenShare st).state).releases = [] := by
  obtain ⟨hm, _, _, hsp, _⟩ := reachable_inv st h
  refine ⟨?_, ?_, ?_, ?_⟩
  · intro hg
    rcases hs : st.stream with _ | ms
    · exact absurd hg (by simpa [hs] using (mt hsp.mpr (by simp [hs])))
    · exact ⟨ms, rfl, by simp [stopScreenShare, hs, hm, cleanupStream],
        by simp [stopScreenShare, hs, hm]⟩
  · intro hg
    have hsnone : st.stream = none := by
      rcases hs : st.stream with _ | ms
      · rfl
      · exact absurd (hsp.mp (by simp [hs])) hg
    simp [stopScreenShare, hsnone]
  · rcases hs : st.stream with _ | ms <;> simp [stopScreenShare, hs, hm]
  · rcases hs : st.stream with _ | ms <;> simp [stopScreenShare, hs, hm]

/-- Witness for C8 at the concrete Active state: the second stop changes
nothing and releases nothing. -/
theorem stop_idempotent_witness :
    (stopScreenShare (stopScreenShare activeState).state).state =
      (stopScreenShare activeState).state ∧
    (stopScreenShare (stopScreenShare activeState).state).releases = [] := by
  have h := stop_idempotent activeState
    (Reachable.start initState (PlatformOutcome.granted msMonitor) Reachable.init
      (by decide) (by decide))
  exact ⟨h.2.2.1, h.2.2.2⟩

/-! Claim C9. -/

/-- Claim C9: any user agent containing "Chrome" is reported as Chrome,
even when it also contains "Edg"; getBrowserInfo answers "Edge" exactly
for the user agents that contain "Edg" but not "Chrome"; hence a real
Edge user agent, which carries both, is reported as Chrome. -/
theorem browser_sniff_chrome_shadows_edge :
    (∀ ua : String, strContains ua "Chrome" = true → getBrowserInfo (some ua) = "Chrome") ∧
    (∀ ua : String, getBrowserInfo (some ua) = "Edge" ↔
        (strContains ua "Edg" = true ∧ strContains ua "Chrome" = false)) ∧
    getBrowserInfo (some "Mozilla/5.0 Chrome/120.0.0.0 Safari/537.36 Edg/120.0.0.0") =
      "Chrome" := by
  refine ⟨?_, ?_, by decide⟩
  · intro ua h
    simp [getBrowserInfo, h]
  · intro ua
    cases hc : strContains ua "Chrome" <;> cases he : strContains ua "Edg" <;>
      cases hf : strContains ua "Firefox" <;> cases hs : strContains ua "Safari" <;>
        simp [getBrowserInfo, hc, he, hf, hs]

/-- Witness for C9: a concrete user agent containing "Chrome". -/
theorem browser_sniff_witness :
    strContains "something Chrome here" "Chrome" = true ∧
    getBrowserInfo (some "something Chrome here") = "Chrome" :=
  ⟨by decide, browser_sniff_chrome_shadows_edge.1 _ (by decide)⟩

/-! Claim C10. -/

/-- Claim C10: stopScreenShare never touches the error field, and
stopping a held stream while mounted clears exactly the phase, stream,
metadata and isActive fields — the error field keeps its prior value. -/
theorem stop_preserves_error :
    (∀ st : HookState, (stopScreenShare st).state.error = st.error) ∧
    (∀ (st : HookState) (ms : MediaStream), st.mounted = true → st.stream = some ms →
        (stopScreenShare st).state =
          { st with
              isActive := false
              permissionState := PermissionState.idle
              stream := none
              metadata := none }) := by
  constructor
  · intro st
    rcases hs : st.stream with _ | ms
    · simp [stopScreenShare, hs]
    · cases hm : st.mounted <;> simp [stopScreenShare, hs, hm]
  · intro st ms hm hs
    simp [stopScreenShare, hs, hm]

/-- Witness for C10 at the concrete Active state. -/
theorem stop_preserves_error_witness :
    (stopScreenShare activeState).state.error = activeState.error ∧
    (stopScreenShare activeState).state =
      { activeState with
          isActive := false
          permissionState := PermissionState.idle
          stream := none
          metadata := none } :=
  ⟨stop_preserves_error.1 activeState,
   stop_preserves_error.2 activeState msMonitor (by decide) (by decide)⟩

end ScreenShare
